import Mathlib

/-!
Shallow embedding of the invoice-extraction pipeline (src/api/pipeline.py).

Modelling conventions:
* Python floats on invoices are modelled as rationals (ℚ).
* Python `None` is `Option.none`; a value that can raise is wrapped in `Option`
  with `none` standing for a raised exception.
* Python truthiness on optional floats (`if t.amount`) is false for `None`
  and for `0`; on optional lists it is false for `None` and for `[]`.
* `round(x, 2)` is Python's round-half-to-even at two decimals, embedded on ℚ.
* The external services (pymupdf text extraction, the ollama chat endpoint,
  pydantic JSON validation) are parameters of the pipeline functions: the page
  texts of the PDF, the chat oracle `ChatRequest → String`, and the parser
  `String → Except String Invoice`.
-/

namespace Pipeline

/-- A calendar date as produced by `datetime.date`. -/
structure Date where
  year : ℕ
  month : ℕ
  day : ℕ
deriving DecidableEq, Repr

structure Doctor where
  title : Option String := none
  first_name : Option String := none
  last_name : Option String := none
  specialty : Option String := none
  practice_name : Option String := none
  practice_address : Option String := none
  phone : Option String := none
  email : Option String := none
  uid : Option String := none
deriving DecidableEq, Repr

structure Patient where
  first_name : Option String := none
  last_name : Option String := none
  date_of_birth : Option Date := none
  social_security_number : Option String := none
deriving DecidableEq, Repr

structure Treatment where
  code : Option String := none
  description : Option String := none
  amount : Option ℚ := none
deriving DecidableEq, Repr

structure Invoice where
  invoice_date : Option Date := none
  invoice_number : Option String := none
  document_type : Option String := none
  doctor : Option Doctor := none
  patient : Option Patient := none
  diagnosis : Option String := none
  treatments : Option (List Treatment) := none
  total_amount : Option ℚ := none
  payment_method : Option String := none
  iban : Option String := none
deriving DecidableEq, Repr

def emptyInvoice : Invoice := {}

/-- The sixteen flags produced by `validate_invoice`, in insertion order. -/
structure ValidationFlags where
  invoice_date_missing : Bool
  invoice_number_missing : Bool
  diagnosis_missing : Bool
  treatments_missing : Bool
  total_amount_missing : Bool
  doctor_first_name_missing : Bool
  doctor_last_name_missing : Bool
  doctor_specialty_missing : Bool
  doctor_practice_address_missing : Bool
  patient_first_name_missing : Bool
  patient_last_name_missing : Bool
  patient_date_of_birth_missing : Bool
  patient_social_security_number_missing : Bool
  total_mismatch : Bool
  last_treatment_equals_sum_of_others : Bool
  last_treatment_looks_like_sum : Bool
deriving DecidableEq, Repr

/-- The dict `{"score": ..., "flags": ...}` returned by `validate_invoice`. -/
structure ValidationReport where
  score : ℚ
  flags : ValidationFlags
deriving DecidableEq, Repr

/-- Python truthiness of an optional float: `None` and `0` are falsy. -/
def pyTruthyFloat (v : Option ℚ) : Bool :=
  match v with
  | some q => decide (q ≠ 0)
  | none => false

/-- Python truthiness of an optional list: `None` and `[]` are falsy. -/
def pyTruthyList (v : Option (List Treatment)) : Bool :=
  match v with
  | some l => !l.isEmpty
  | none => false

/-- `[t.amount for t in treatments if t.amount]`: keep only present, nonzero amounts. -/
def amountsOf (ts : List Treatment) : List ℚ :=
  ts.filterMap fun t =>
    match t.amount with
    | some a => if a = 0 then none else some a
    | none => none

/-- Does `needle` occur as an initial segment of `hay`? -/
def leadEq : List Char → List Char → Bool
  | [], _ => true
  | _ :: _, [] => false
  | a :: as, b :: bs => a == b && leadEq as bs

/-- Does `needle` occur as a contiguous subsequence of `hay`?  Embeds Python's
`needle in hay` on strings. -/
def containsSeq (needle : List Char) : List Char → Bool
  | [] => needle.isEmpty
  | c :: rest => leadEq needle (c :: rest) || containsSeq needle rest

def strIn (needle hay : String) : Bool := containsSeq needle.data hay.data

def lowerStr (s : String) : String := String.map Char.toLower s

def SUM_KEYWORDS : List String :=
  ["gesamt", "gesamtbetrag", "total", "honorar gesamt", "summe", "sunne"]

/-- `invoice.treatments[-1].description.lower() if ... else ""`. -/
def lastDescOf (ts : List Treatment) : String :=
  match ts.getLast? with
  | some t =>
    match t.description with
    | some d => lowerStr d
    | none => ""
  | none => ""

/-- The guard `if invoice.treatments and invoice.total_amount`. -/
def consistencyGuard (inv : Invoice) : Bool :=
  pyTruthyList inv.treatments && pyTruthyFloat inv.total_amount

/-- The three consistency flags `(total_mismatch,
last_treatment_equals_sum_of_others, last_treatment_looks_like_sum)`.
Returns `none` when the Python code raises `IndexError` at `amounts[-1]`
(the guard holds but every amount is absent or zero). -/
def consistencyFlags (inv : Invoice) : Option (Bool × Bool × Bool) :=
  if consistencyGuard inv then
    let ts := inv.treatments.getD []
    let total := inv.total_amount.getD 0
    let amounts := amountsOf ts
    let calcSum := amounts.sum
    match amounts.getLast? with
    | none => none
    | some last =>
      some (decide ((1 : ℚ)/20 < |calcSum - total|),
            decide (calcSum - last = last),
            SUM_KEYWORDS.any fun kw => strIn kw (lastDescOf ts))
  else
    some (false, false, false)

/-- Python `round` at no decimals: round half to even, on ℚ. -/
def roundHalfEven (q : ℚ) : ℤ :=
  let fl := ⌊q⌋
  let r := q - (fl : ℚ)
  if r < 1/2 then fl
  else if r = 1/2 then (if fl % 2 = 0 then fl else fl + 1)
  else fl + 1

/-- Python `round(q, 2)` on ℚ. -/
def pyRound2 (q : ℚ) : ℚ := (roundHalfEven (q * 100) : ℚ) / 100

/-- The flags dict as a list, in insertion order (`flags.values()`). -/
def flagsList (f : ValidationFlags) : List Bool :=
  [f.invoice_date_missing, f.invoice_number_missing, f.diagnosis_missing,
   f.treatments_missing, f.total_amount_missing,
   f.doctor_first_name_missing, f.doctor_last_name_missing,
   f.doctor_specialty_missing, f.doctor_practice_address_missing,
   f.patient_first_name_missing, f.patient_last_name_missing,
   f.patient_date_of_birth_missing, f.patient_social_security_number_missing,
   f.total_mismatch, f.last_treatment_equals_sum_of_others,
   f.last_treatment_looks_like_sum]

/-- `sum(flags.values())`: the number of raised flags. -/
def trueCount (f : ValidationFlags) : ℕ := (flagsList f).count true

/-- `validate_invoice`.  `none` models the `IndexError` raised when the
consistency guard holds but every treatment amount is absent or zero. -/
def validate_invoice (inv : Invoice) : Option ValidationReport :=
  (consistencyFlags inv).map fun c =>
    let flags : ValidationFlags :=
      { invoice_date_missing := inv.invoice_date.isNone
        invoice_number_missing := inv.invoice_number.isNone
        diagnosis_missing := inv.diagnosis.isNone
        treatments_missing := !pyTruthyList inv.treatments
        total_amount_missing := inv.total_amount.isNone
        doctor_first_name_missing :=
          match inv.doctor with
          | none => true
          | some d => d.first_name.isNone
        doctor_last_name_missing :=
          match inv.doctor with
          | none => true
          | some d => d.last_name.isNone
        doctor_specialty_missing :=
          match inv.doctor with
          | none => true
          | some d => d.specialty.isNone
        doctor_practice_address_missing :=
          match inv.doctor with
          | none => true
          | some d => d.practice_address.isNone
        patient_first_name_missing :=
          match inv.patient with
          | none => true
          | some p => p.first_name.isNone
        patient_last_name_missing :=
          match inv.patient with
          | none => true
          | some p => p.last_name.isNone
        patient_date_of_birth_missing :=
          match inv.patient with
          | none => true
          | some p => p.date_of_birth.isNone
        patient_social_security_number_missing :=
          match inv.patient with
          | none => true
          | some p => p.social_security_number.isNone
        total_mismatch := c.1
        last_treatment_equals_sum_of_others := c.2.1
        last_treatment_looks_like_sum := c.2.2 }
    { score := pyRound2 (1 - (trueCount flags : ℚ) / ((flagsList flags).length : ℚ))
      flags := flags }

/-! ### Date parsing

`datetime.strptime` for the three formats `"%d.%m.%Y"`, `"%Y-%m-%d"`,
`"%d/%m/%Y"`: in CPython the format is compiled to a regex where `%d` is
`3[01]|[12]\d|0[1-9]|[1-9]`, `%m` is `1[0-2]|0[1-9]|[1-9]` and `%Y` is
exactly four digits, the whole string must be consumed, and the matched
numbers are then passed to the `date` constructor, which raises on an
invalid calendar date. -/

def digitVal (c : Char) : Option ℕ :=
  if c.isDigit then some (c.toNat - 48) else none

/-- A one-or-two digit numeric field with value between 1 and `mx`, on the
alternation order of the CPython regex: a valid two-digit form first, else a
single nonzero digit. -/
def parseNumTok (mx : ℕ) : List Char → Option (ℕ × List Char)
  | c1 :: c2 :: rest =>
    match digitVal c1, digitVal c2 with
    | some a, some b =>
      let v := 10 * a + b
      if 1 ≤ v ∧ v ≤ mx then some (v, rest)
      else if 1 ≤ a then some (a, c2 :: rest)
      else none
    | some a, none => if 1 ≤ a then some (a, c2 :: rest) else none
    | none, _ => none
  | [c1] =>
    match digitVal c1 with
    | some a => if 1 ≤ a then some (a, []) else none
    | none => none
  | [] => none

/-- `%Y`: exactly four digits. -/
def parseYear4 : List Char → Option (ℕ × List Char)
  | c1 :: c2 :: c3 :: c4 :: rest =>
    match digitVal c1, digitVal c2, digitVal c3, digitVal c4 with
    | some a, some b, some c, some d => some (1000 * a + 100 * b + 10 * c + d, rest)
    | _, _, _, _ => none
  | _ => none

def isLeap (y : ℕ) : Bool :=
  y % 4 == 0 && (y % 100 != 0 || y % 400 == 0)

def daysInMonth (y m : ℕ) : ℕ :=
  if m = 2 then (if isLeap y then 29 else 28)
  else if m = 4 ∨ m = 6 ∨ m = 9 ∨ m = 11 then 30
  else 31

/-- The `datetime.date` constructor: raises (`none`) outside the valid range. -/
def mkDate (y m d : ℕ) : Option Date :=
  if 1 ≤ y ∧ y ≤ 9999 ∧ 1 ≤ m ∧ m ≤ 12 ∧ 1 ≤ d ∧ d ≤ daysInMonth y m then
    some ⟨y, m, d⟩
  else none

def expectChar (c : Char) : List Char → Option (List Char)
  | x :: rest => if x == c then some rest else none
  | [] => none

/-- `strptime(s, "%d" sep "%m" sep "%Y").date()`. -/
def strptimeDMY (sep : Char) (s : String) : Option Date := do
  let (d, r1) ← parseNumTok 31 s.data
  let r2 ← expectChar sep r1
  let (m, r3) ← parseNumTok 12 r2
  let r4 ← expectChar sep r3
  let (y, r5) ← parseYear4 r4
  if r5.isEmpty then mkDate y m d else none

/-- `strptime(s, "%Y" sep "%m" sep "%d").date()`. -/
def strptimeYMD (sep : Char) (s : String) : Option Date := do
  let (y, r1) ← parseYear4 s.data
  let r2 ← expectChar sep r1
  let (m, r3) ← parseNumTok 12 r2
  let r4 ← expectChar sep r3
  let (d, r5) ← parseNumTok 31 r4
  if r5.isEmpty then mkDate y m d else none

/-- The `for fmt in (...)` loop: first candidate that parsed and passes the
year-range check wins; parse failures and out-of-range years fall through. -/
def firstValid (check : Date → Bool) : List (Option Date) → Option Date
  | [] => none
  | c :: rest =>
    match c with
    | some p => if check p then some p else firstValid check rest
    | none => firstValid check rest

/-- `Patient.parse_date_of_birth` on a string input.  `todayYear` stands for
`date.today().year`. -/
def parse_date_of_birth (todayYear : ℕ) (v : String) : Option Date :=
  firstValid (fun p => decide (1900 ≤ p.year) && decide (p.year ≤ todayYear))
    [strptimeDMY '.' v, strptimeYMD '-' v, strptimeDMY '/' v]

/-- `Invoice.parse_invoice_date` on a string input. -/
def parse_invoice_date (v : String) : Option Date :=
  firstValid (fun p => decide (2000 ≤ p.year) && decide (p.year ≤ 2100))
    [strptimeDMY '.' v, strptimeYMD '-' v, strptimeDMY '/' v]

/-! ### Text extraction and the LLM step -/

def OCR_MODEL : String := "glm-ocr"
def LLM_MODEL_LIGHT : String := "qwen3:4b"
def LLM_MODEL : String := "qwen3:8b"
def TEXT_THRESHOLD : ℕ := 30

/-- `detect_pdf_type`, over the per-page texts that `page.get_text()` yields. -/
def detect_pdf_type (pages : List String) : String :=
  if TEXT_THRESHOLD ≤ (String.join pages).length then "digital" else "scan"

/-- The request `ollama.chat` is issued with: the `model=` argument (`none`
is Python `None`) and the user message built from the raw text. -/
structure ChatRequest where
  model : Option String
  userContent : String
deriving DecidableEq, Repr

def mkChatRequest (model : Option String) (raw_text : String) : ChatRequest :=
  { model := model
    userContent := "Here is the invoice text:\n\n" ++ raw_text }

/-- `extract_structured_data`.  `chat` is the ollama endpoint (request to
response content), `parse` is `Invoice.model_validate_json` (pydantic).  The
returned request records what was sent to `ollama.chat`; the `Option` wraps
the pair `(invoice, validation)`, with outer `none` a propagated exception
and inner `none`s the Python `None` and `{}` of the failure branch. -/
def extract_structured_data (chat : ChatRequest → String)
    (parse : String → Except String Invoice) (raw_text : String)
    (llm_model : Option String := some LLM_MODEL_LIGHT) :
    ChatRequest × Option (Option Invoice × Option ValidationReport) :=
  let req := mkChatRequest llm_model raw_text
  let content := chat req
  (req,
    match parse content with
    | Except.error _ => some (none, none)
    | Except.ok invoice => (validate_invoice invoice).map fun v => (some invoice, some v))

/-- The raw text `process_pdf` hands to the LLM step: the digital extraction
when the document classifies as digital, the OCR text otherwise. -/
def rawTextOf (pages : List String) (digitalText scanText : String) : String :=
  if detect_pdf_type pages = "digital" then digitalText else scanText

/-- `process_pdf`.  Note that its `llm_model` parameter defaults to `none`
(Python `None`) and is always passed on to `extract_structured_data`
explicitly. -/
def process_pdf (chat : ChatRequest → String)
    (parse : String → Except String Invoice)
    (pages : List String) (digitalText scanText : String)
    (llm_model : Option String := none) :
    ChatRequest × Option (Option Invoice × Option ValidationReport × String) :=
  let pdf_type := detect_pdf_type pages
  let raw_text := rawTextOf pages digitalText scanText
  let r := extract_structured_data chat parse raw_text llm_model
  (r.1, r.2.map fun p => (p.1, p.2, pdf_type))

/-! ### Concrete inputs and auxiliary definitions used by the theorems -/

/-- The flags of the all-absent invoice: every presence flag raised, the
three consistency flags defaulted false. -/
def allMissingFlags : ValidationFlags :=
  { invoice_date_missing := true
    invoice_number_missing := true
    diagnosis_missing := true
    treatments_missing := true
    total_amount_missing := true
    doctor_first_name_missing := true
    doctor_last_name_missing := true
    doctor_specialty_missing := true
    doctor_practice_address_missing := true
    patient_first_name_missing := true
    patient_last_name_missing := true
    patient_date_of_birth_missing := true
    patient_social_security_number_missing := true
    total_mismatch := false
    last_treatment_equals_sum_of_others := false
    last_treatment_looks_like_sum := false }

/-- The report `validate_invoice` produces on the all-absent invoice:
13 raised flags, score `round(1 - 13/16, 2) = 0.19`. -/
def emptyReport : ValidationReport := { score := 19/100, flags := allMissingFlags }

/-- Non-empty treatments and nonzero total, but every amount absent or zero. -/
def c1Invoice : Invoice :=
  { emptyInvoice with
    treatments := some [{ amount := some 0 }, { amount := none }]
    total_amount := some 50 }

/-- Non-empty treatments, nonzero total, the single amount absent. -/
def c7Invoice : Invoice :=
  { emptyInvoice with
    treatments := some [{ amount := none }]
    total_amount := some 10 }

/-- Two 50-amount treatments followed by a treatment with absent amount. -/
def c5Invoice : Invoice :=
  { emptyInvoice with
    treatments := some [{ amount := some 50 }, { amount := some 50 }, { amount := none }]
    total_amount := some 100 }

/-- The spec's worked example: amounts 50, 50, 100, last description "Summe". -/
def specExampleInvoice : Invoice :=
  { emptyInvoice with
    treatments := some [{ amount := some 50 }, { amount := some 50 },
                        { description := some "Summe", amount := some 100 }]
    total_amount := some 100 }

/-- A chat oracle whose response is never schema-conformant. -/
def constChatFail : ChatRequest → String := fun _ => "not json"

/-- A pydantic validator that rejects every response. -/
def parseAlwaysFail : String → Except String Invoice := fun _ => Except.error "invalid"

/-- Modelled from the claim's words (C5): true if the sum of all treatment
amounts minus the last treatment's amount equals the last treatment's amount,
an absent amount contributing nothing to the sum and an absent last amount
read as zero. -/
def spec_last_treatment_equals_sum (inv : Invoice) : Bool :=
  match inv.treatments with
  | some ts =>
    match ts.getLast? with
    | some tLast =>
      decide ((ts.filterMap Treatment.amount).sum - tLast.amount.getD 0
        = tLast.amount.getD 0)
    | none => false
  | none => false

/-- Modelled from the claim's words (C7): the sum of the treatment amounts,
skipping absent amounts. -/
def sumSkippingAbsent (inv : Invoice) : ℚ :=
  ((inv.treatments.getD []).filterMap Treatment.amount).sum

/-! ### Helper lemmas -/

lemma firstValid_check (check : Date → Bool) (l : List (Option Date)) (p : Date)
    (h : firstValid check l = some p) : check p = true := by
  induction l with
  | nil => simp [firstValid] at h
  | cons c rest ih =>
    cases c with
    | none => exact ih (by simpa [firstValid] using h)
    | some q =>
      by_cases hq : check q = true
      · have hqp : q = p := by simpa [firstValid, hq] using h
        rw [← hqp]; exact hq
      · exact ih (by simpa [firstValid, hq] using h)

lemma flagsList_length (f : ValidationFlags) : (flagsList f).length = 16 := rfl

lemma trueCount_le_sixteen (f : ValidationFlags) : trueCount f ≤ 16 := by
  have h := List.count_le_length (true) (flagsList f)
  simpa [trueCount, flagsList_length] using h

lemma pyRound2_interval (k : ℕ) (hk : k < 17) :
    0 ≤ pyRound2 (1 - (k : ℚ) / 16) ∧ pyRound2 (1 - (k : ℚ) / 16) ≤ 1 := by
  interval_cases k <;> constructor <;> norm_num [pyRound2, roundHalfEven, Int.fract]

lemma consistencyFlags_empty :
    consistencyFlags emptyInvoice = some (false, false, false) := rfl

lemma validate_empty : validate_invoice emptyInvoice = some emptyReport := by
  unfold validate_invoice
  rw [consistencyFlags_empty]
  simp only [Option.map_some']
  norm_num [emptyReport, allMissingFlags, emptyInvoice, pyTruthyList, trueCount,
    flagsList, pyRound2, roundHalfEven, Int.fract]

lemma specExample_guard : consistencyGuard specExampleInvoice = true := by
  norm_num [consistencyGuard, pyTruthyList, pyTruthyFloat, specExampleInvoice,
    emptyInvoice]

lemma specExample_last :
    (amountsOf (specExampleInvoice.treatments.getD [])).getLast? = some 100 := by
  norm_num [amountsOf, specExampleInvoice, emptyInvoice]

/-! ### The claims -/

/-- Claim C1: the claim says `validate_invoice` never raises on a well-typed
Invoice, in particular on one whose treatments list is non-empty and
total_amount nonzero while every treatment amount is absent or zero.  The
code violates this: at such an invoice the truthiness filter leaves
`amounts` empty and `amounts[-1]` raises `IndexError`, modelled here as the
function returning `none`. -/
theorem validate_invoice_crashes_on_all_absent_amounts :
    validate_invoice c1Invoice = none := by
  norm_num [validate_invoice, consistencyFlags, consistencyGuard, pyTruthyList,
    pyTruthyFloat, amountsOf, c1Invoice, emptyInvoice]

/-- Claim C2: when the model response is not schema-conformant (the pydantic
parse returns an error), `extract_structured_data` returns an absent Invoice
with an empty validation report instead of raising, and `process_pdf` then
returns (absent Invoice, empty report, pdf-type label) without raising. -/
theorem extract_failure_absent_invoice (chat : ChatRequest → String)
    (parse : String → Except String Invoice) (pages : List String)
    (digitalText scanText : String) (llm_model : Option String) (e : String)
    (h : parse (chat (mkChatRequest llm_model (rawTextOf pages digitalText scanText)))
      = Except.error e) :
    extract_structured_data chat parse (rawTextOf pages digitalText scanText) llm_model
      = (mkChatRequest llm_model (rawTextOf pages digitalText scanText),
          some (none, none)) ∧
    process_pdf chat parse pages digitalText scanText llm_model
      = (mkChatRequest llm_model (rawTextOf pages digitalText scanText),
          some (none, none, detect_pdf_type pages)) := by
  have he : extract_structured_data chat parse (rawTextOf pages digitalText scanText)
      llm_model
      = (mkChatRequest llm_model (rawTextOf pages digitalText scanText),
          some (none, none)) := by
    simp [extract_structured_data, h]
  refine ⟨he, ?_⟩
  simp [process_pdf, he]

/-- Witness for C2: a concrete failing parse. -/
theorem extract_failure_absent_invoice_witness :
    extract_structured_data constChatFail parseAlwaysFail (rawTextOf [] "d" "s") none
      = (mkChatRequest none (rawTextOf [] "d" "s"), some (none, none)) ∧
    process_pdf constChatFail parseAlwaysFail [] "d" "s" none
      = (mkChatRequest none (rawTextOf [] "d" "s"),
          some (none, none, detect_pdf_type [])) :=
  extract_failure_absent_invoice constChatFail parseAlwaysFail [] "d" "s" none
    "invalid" rfl

/-- Claim C3: whenever `validate_invoice` returns a report, its score is
`round(1 - true_flag_count/16, 2)` over the 16 flags, and lies in [0, 1]. -/
theorem validate_invoice_score_eq_round (inv : Invoice) (r : ValidationReport)
    (h : validate_invoice inv = some r) :
    r.score = pyRound2 (1 - (trueCount r.flags : ℚ) / 16) ∧
    0 ≤ r.score ∧ r.score ≤ 1 := by
  have hs : r.score
      = pyRound2 (1 - (trueCount r.flags : ℚ) / ((flagsList r.flags).length : ℚ)) := by
    unfold validate_invoice at h
    cases hc : consistencyFlags inv with
    | none => rw [hc] at h; simp at h
    | some c =>
      rw [hc] at h
      simp only [Option.map_some', Option.some.injEq] at h
      subst h
      rfl
  rw [flagsList_length] at hs
  norm_num at hs
  refine ⟨hs, ?_⟩
  rw [hs]
  exact pyRound2_interval (trueCount r.flags)
    (Nat.lt_succ_of_le (trueCount_le_sixteen r.flags))

/-- Witness for C3: the all-absent invoice. -/
theorem validate_invoice_score_eq_round_witness :
    emptyReport.score = pyRound2 (1 - (trueCount emptyReport.flags : ℚ) / 16) ∧
    0 ≤ emptyReport.score ∧ emptyReport.score ≤ 1 :=
  validate_invoice_score_eq_round emptyInvoice emptyReport validate_empty

/-- Claim C4 counterexample: `process_pdf` invoked without a model override
issues the chat request with model `None`, not the light model: its default
`llm_model = None` is passed on explicitly, bypassing the
`LLM_MODEL_LIGHT` default of `extract_structured_data`. -/
theorem process_pdf_default_not_light_model :
    (process_pdf constChatFail parseAlwaysFail [] "d" "s").1.model = none ∧
    (none : Option String) ≠ some LLM_MODEL_LIGHT :=
  ⟨rfl, fun hcontr => Option.noConfusion hcontr⟩

/-- Claim C4 amended: the light-model default applies exactly when
`extract_structured_data` is called without the model argument; `process_pdf`
always passes its own `llm_model` value (default `None`) through, so invoking
it without an override issues the request with model `None`. -/
theorem llm_model_default_amended (chat : ChatRequest → String)
    (parse : String → Except String Invoice) (raw_text : String)
    (pages : List String) (digitalText scanText : String) :
    (extract_structured_data chat parse raw_text).1.model = some LLM_MODEL_LIGHT ∧
    (process_pdf chat parse pages digitalText scanText).1.model = none :=
  ⟨rfl, rfl⟩

/-- Claim C5 counterexample: with treatments of amounts 50, 50 and an absent
last amount and total 100, the code sets the flag from the last element of
the truthiness-filtered amount list (50), yielding `true`, while the claim's
reading — sum of all amounts minus the last treatment's amount equals that
amount — yields `false`. -/
theorem last_eq_sum_flag_counterexample :
    (validate_invoice c5Invoice).map
        (fun r => r.flags.last_treatment_equals_sum_of_others) = some true ∧
    spec_last_treatment_equals_sum c5Invoice = false := by
  constructor
  · norm_num [validate_invoice, consistencyFlags, consistencyGuard, pyTruthyList,
      pyTruthyFloat, amountsOf, lastDescOf, c5Invoice, emptyInvoice, SUM_KEYWORDS,
      strIn, containsSeq, leadEq, lowerStr, List.filterMap_cons, List.filterMap_nil,
      List.sum_cons, List.sum_nil]
  · norm_num [spec_last_treatment_equals_sum, c5Invoice, emptyInvoice,
      List.filterMap_cons, List.filterMap_nil, List.sum_cons, List.sum_nil]

/-- Claim C5 amended: when the consistency guard holds and at least one
treatment amount is present and nonzero, the flag is true exactly when the
sum of the present-and-nonzero amounts minus the last present-and-nonzero
amount equals that last amount (exact equality); when every amount is absent
or zero the function raises instead. -/
theorem last_eq_sum_flag_amended (inv : Invoice) (lastA : ℚ)
    (hg : consistencyGuard inv = true)
    (hl : (amountsOf (inv.treatments.getD [])).getLast? = some lastA) :
    (validate_invoice inv).map
        (fun r => r.flags.last_treatment_equals_sum_of_others)
      = some (decide ((amountsOf (inv.treatments.getD [])).sum - lastA = lastA)) := by
  unfold validate_invoice consistencyFlags
  rw [hg]
  simp [hl]

/-- Witness for the amended C5: the spec's worked example (50, 50, 100 with
total 100). -/
theorem last_eq_sum_flag_amended_witness :
    (validate_invoice specExampleInvoice).map
        (fun r => r.flags.last_treatment_equals_sum_of_others)
      = some (decide ((amountsOf (specExampleInvoice.treatments.getD [])).sum
          - 100 = 100)) :=
  last_eq_sum_flag_amended specExampleInvoice 100 specExample_guard specExample_last

/-- Claim C6: the three consistency flags are false whenever the guard
(non-empty treatments and present, nonzero total) fails, and the all-absent
invoice yields all thirteen presence flags true (treatments_missing among
them) with the three consistency flags false. -/
theorem consistency_flags_guarded :
    (∀ inv r, consistencyGuard inv = false → validate_invoice inv = some r →
      r.flags.total_mismatch = false ∧
      r.flags.last_treatment_equals_sum_of_others = false ∧
      r.flags.last_treatment_looks_like_sum = false) ∧
    validate_invoice emptyInvoice = some emptyReport := by
  constructor
  · intro inv r hg h
    unfold validate_invoice consistencyFlags at h
    rw [hg] at h
    simp only [Bool.false_eq_true, if_false, Option.map_some', Option.some.injEq] at h
    subst h
    exact ⟨rfl, rfl, rfl⟩
  · exact validate_empty

/-- Witness for C6: the all-absent invoice fails the guard. -/
theorem consistency_flags_guarded_witness :
    emptyReport.flags.total_mismatch = false ∧
    emptyReport.flags.last_treatment_equals_sum_of_others = false ∧
    emptyReport.flags.last_treatment_looks_like_sum = false :=
  consistency_flags_guarded.1 emptyInvoice emptyReport rfl validate_empty

/-- Claim C7: the claim prescribes `total_mismatch` = (|sum of amounts
skipping absent − total| > 0.05) for every invoice passing the guard; at an
invoice whose only amount is absent the code instead raises (`none`), while
the claim's formula prescribes the flag `true` there (|0 − 10| > 0.05). -/
theorem total_mismatch_crash_on_no_truthy_amounts :
    validate_invoice c7Invoice = none ∧
    (1 : ℚ)/20 < |sumSkippingAbsent c7Invoice - c7Invoice.total_amount.getD 0| := by
  constructor
  · norm_num [validate_invoice, consistencyFlags, consistencyGuard, pyTruthyList,
      pyTruthyFloat, amountsOf, c7Invoice, emptyInvoice]
  · norm_num [sumSkippingAbsent, c7Invoice, emptyInvoice]

/-- Claim C8: the classifier returns "digital" exactly when the concatenated
page text has length at least 30, "scan" otherwise, with a deterministic
boundary at 29 versus 30 characters. -/
theorem detect_pdf_type_threshold :
    (∀ pages : List String,
      (detect_pdf_type pages = "digital" ↔ 30 ≤ (String.join pages).length) ∧
      (detect_pdf_type pages = "scan" ↔ (String.join pages).length < 30)) ∧
    detect_pdf_type ["aaaaaaaaaaaaaaaaaaaaaaaaaaaaa"] = "scan" ∧
    detect_pdf_type ["aaaaaaaaaaaaaaaaaaaaaaaaaaaaaa"] = "digital" := by
  refine ⟨fun pages => ?_, by decide, by decide⟩
  unfold detect_pdf_type TEXT_THRESHOLD
  by_cases h : 30 ≤ (String.join pages).length
  · rw [if_pos h]
    exact ⟨⟨fun _ => h, fun _ => rfl⟩,
           ⟨fun hd => absurd hd (by decide), fun hlt => absurd h (by omega)⟩⟩
  · rw [if_neg h]
    exact ⟨⟨fun hs => absurd hs (by decide), fun hle => absurd hle h⟩,
           ⟨fun _ => by omega, fun _ => rfl⟩⟩

/-- Claim C9: the three date formats all parse to 22 July 1965 as a date of
birth (for any `today` of year at least 1965), and the well-formed but
invalid "31.02.1965" parses to absent rather than raising. -/
theorem parse_date_of_birth_formats (todayYear : ℕ) (h : 1965 ≤ todayYear) :
    parse_date_of_birth todayYear "22.07.1965" = some ⟨1965, 7, 22⟩ ∧
    parse_date_of_birth todayYear "1965-07-22" = some ⟨1965, 7, 22⟩ ∧
    parse_date_of_birth todayYear "22/07/1965" = some ⟨1965, 7, 22⟩ ∧
    parse_date_of_birth todayYear "31.02.1965" = none := by
  have h1 : strptimeDMY '.' "22.07.1965" = some ⟨1965, 7, 22⟩ := by decide
  have h2 : strptimeYMD '-' "1965-07-22" = some ⟨1965, 7, 22⟩ := by decide
  have h3 : strptimeDMY '/' "22/07/1965" = some ⟨1965, 7, 22⟩ := by decide
  have h4 : strptimeDMY '.' "1965-07-22" = none := by decide
  have h5 : strptimeDMY '.' "22/07/1965" = none := by decide
  have h6 : strptimeYMD '-' "22/07/1965" = none := by decide
  have h7 : strptimeDMY '.' "31.02.1965" = none := by decide
  have h8 : strptimeYMD '-' "31.02.1965" = none := by decide
  have h9 : strptimeDMY '/' "31.02.1965" = none := by decide
  refine ⟨?_, ?_, ?_, ?_⟩
  · simp [parse_date_of_birth, firstValid, h1, h]
  · simp [parse_date_of_birth, firstValid, h2, h4, h]
  · simp [parse_date_of_birth, firstValid, h3, h5, h6, h]
  · simp [parse_date_of_birth, firstValid, h7, h8, h9]

/-- Witness for C9: today's year 2026. -/
theorem parse_date_of_birth_formats_witness :
    parse_date_of_birth 2026 "22.07.1965" = some ⟨1965, 7, 22⟩ ∧
    parse_date_of_birth 2026 "1965-07-22" = some ⟨1965, 7, 22⟩ ∧
    parse_date_of_birth 2026 "22/07/1965" = some ⟨1965, 7, 22⟩ ∧
    parse_date_of_birth 2026 "31.02.1965" = none :=
  parse_date_of_birth_formats 2026 (by decide)

/-- Claim C10: a present invoice_date always has year between 2000 and 2100,
a present date_of_birth always has year between 1900 and today's year, and
the same string with year 1965 parses as a date of birth but to absent as an
invoice date. -/
theorem date_year_range_contrast :
    (∀ s d, parse_invoice_date s = some d → 2000 ≤ d.year ∧ d.year ≤ 2100) ∧
    (∀ todayYear s d, parse_date_of_birth todayYear s = some d →
      1900 ≤ d.year ∧ d.year ≤ todayYear) ∧
    parse_date_of_birth 2026 "22.07.1965" = some ⟨1965, 7, 22⟩ ∧
    parse_invoice_date "22.07.1965" = none := by
  refine ⟨?_, ?_, by decide, by decide⟩
  · intro s d h
    unfold parse_invoice_date at h
    have hc := firstValid_check _ _ _ h
    simpa using hc
  · intro todayYear s d h
    unfold parse_date_of_birth at h
    have hc := firstValid_check _ _ _ h
    simpa using hc

/-- Witness for C10: a 2024 invoice date is in range. -/
theorem date_year_range_contrast_witness :
    2000 ≤ (Date.mk 2024 6 5).year ∧ (Date.mk 2024 6 5).year ≤ 2100 :=
  date_year_range_contrast.1 "05.06.2024" ⟨2024, 6, 5⟩ (by decide)

end Pipeline
